import Mathlib

/-!
Verification of the shader-reflection serialization module
(qshaderdescription.cpp) and the reference (null) RHI backend
(qrhinull.cpp) of the qtbase graphics abstraction.

The C++ sources are shallowly embedded: QJson documents become an
inductive `JVal` tree with association-list objects, the reflection data
model becomes plain Lean structures, and the encoder/decoder functions
(`makeDoc`, `loadDoc`, the token tables) are translated statement by
statement.  The null backend's frame lifecycle is embedded as explicit
state passing.
-/

namespace QtShaderDescription

/-- A QJson value: string, int, bool, array or object.  Objects are
association lists; the C++ decoder only ever performs key lookups and
`contains` tests, for which an association list with unique keys is
observationally equivalent to QJsonObject's sorted map. -/
inductive JVal : Type where
  | jstr : String → JVal
  | jint : Int → JVal
  | jbool : Bool → JVal
  | jarr : List JVal → JVal
  | jobj : List (String × JVal) → JVal
deriving Inhabited

/-- Key lookup in a JSON object, first match wins (QJsonObject::value). -/
def jLookup : List (String × JVal) → String → Option JVal
  | [], _ => none
  | (k, v) :: rest, key => if k = key then some v else jLookup rest key

/-- QJsonValue::toString: missing/undefined or non-string value yields the
null string. -/
def jStr : Option JVal → String
  | some (.jstr s) => s
  | _ => ""

/-- QJsonValue::toInt: missing/undefined or non-numeric value yields 0. -/
def jInt : Option JVal → Int
  | some (.jint n) => n
  | _ => 0

/-- QJsonValue::toBool: missing/undefined or non-bool value yields false. -/
def jBool : Option JVal → Bool
  | some (.jbool b) => b
  | _ => false

/-- QJsonValue::toArray: missing/undefined or non-array value yields the
empty array. -/
def jArr : Option JVal → List JVal
  | some (.jarr a) => a
  | _ => []

/-- QJsonValue::toObject / QJsonDocument::object: missing/undefined or
non-object value yields the empty object. -/
def jObj : Option JVal → List (String × JVal)
  | some (.jobj o) => o
  | _ => []

/-- QShaderDescription::VariableType, exactly the enumerators of the
source enum (qshaderdescription.h as documented in the source file's
enum listing). -/
inductive VariableType : Type where
  | Unknown
  | Float | Vec2 | Vec3 | Vec4
  | Mat2 | Mat2x3 | Mat2x4 | Mat3 | Mat3x2 | Mat3x4 | Mat4 | Mat4x2 | Mat4x3
  | Int | Int2 | Int3 | Int4
  | Uint | Uint2 | Uint3 | Uint4
  | Bool | Bool2 | Bool3 | Bool4
  | Double | Double2 | Double3 | Double4
  | DMat2 | DMat2x3 | DMat2x4 | DMat3 | DMat3x2 | DMat3x4 | DMat4 | DMat4x2 | DMat4x3
  | Sampler1D | Sampler2D | Sampler2DMS | Sampler3D | SamplerCube
  | Sampler1DArray | Sampler2DArray | Sampler2DMSArray | Sampler3DArray
  | SamplerCubeArray | SamplerRect | SamplerBuffer
  | Image1D | Image2D | Image2DMS | Image3D | ImageCube
  | Image1DArray | Image2DArray | Image2DMSArray | Image3DArray
  | ImageCubeArray | ImageRect | ImageBuffer
  | Struct
deriving DecidableEq, Inhabited, Repr

/-- QShaderDescription::ImageFormat, the enumerators appearing in the
source's image-format table. -/
inductive ImageFormat : Type where
  | ImageFormatUnknown
  | ImageFormatRgba32f | ImageFormatRgba16f | ImageFormatR32f
  | ImageFormatRgba8 | ImageFormatRgba8Snorm
  | ImageFormatRg32f | ImageFormatRg16f | ImageFormatR11fG11fB10f | ImageFormatR16f
  | ImageFormatRgba16 | ImageFormatRgb10A2 | ImageFormatRg16 | ImageFormatRg8
  | ImageFormatR16 | ImageFormatR8
  | ImageFormatRgba16Snorm | ImageFormatRg16Snorm | ImageFormatRg8Snorm
  | ImageFormatR16Snorm | ImageFormatR8Snorm
  | ImageFormatRgba32i | ImageFormatRgba16i | ImageFormatRgba8i
  | ImageFormatR32i | ImageFormatRg32i | ImageFormatRg16i | ImageFormatRg8i
  | ImageFormatR16i | ImageFormatR8i
  | ImageFormatRgba32ui | ImageFormatRgba16ui | ImageFormatRgba8ui
  | ImageFormatR32ui | ImageFormatRgb10a2ui | ImageFormatRg32ui | ImageFormatRg16ui
  | ImageFormatRg8ui | ImageFormatR16ui | ImageFormatR8ui
deriving DecidableEq, Inhabited, Repr

/-- The fixed ordered token table for variable types (`typeTab`), row for
row from the source. -/
def typeTab : List (String × VariableType) :=
  [ ("float", .Float), ("vec2", .Vec2), ("vec3", .Vec3), ("vec4", .Vec4),
    ("mat2", .Mat2), ("mat3", .Mat3), ("mat4", .Mat4),
    ("struct", .Struct),
    ("sampler1D", .Sampler1D), ("sampler2D", .Sampler2D), ("sampler2DMS", .Sampler2DMS),
    ("sampler3D", .Sampler3D), ("samplerCube", .SamplerCube),
    ("sampler1DArray", .Sampler1DArray), ("sampler2DArray", .Sampler2DArray),
    ("sampler2DMSArray", .Sampler2DMSArray), ("sampler3DArray", .Sampler3DArray),
    ("samplerCubeArray", .SamplerCubeArray), ("samplerRect", .SamplerRect),
    ("samplerBuffer", .SamplerBuffer),
    ("mat2x3", .Mat2x3), ("mat2x4", .Mat2x4), ("mat3x2", .Mat3x2),
    ("mat3x4", .Mat3x4), ("mat4x2", .Mat4x2), ("mat4x3", .Mat4x3),
    ("int", .Int), ("ivec2", .Int2), ("ivec3", .Int3), ("ivec4", .Int4),
    ("uint", .Uint), ("uvec2", .Uint2), ("uvec3", .Uint3), ("uvec4", .Uint4),
    ("bool", .Bool), ("bvec2", .Bool2), ("bvec3", .Bool3), ("bvec4", .Bool4),
    ("double", .Double), ("dvec2", .Double2), ("dvec3", .Double3), ("dvec4", .Double4),
    ("dmat2", .DMat2), ("dmat3", .DMat3), ("dmat4", .DMat4),
    ("dmat2x3", .DMat2x3), ("dmat2x4", .DMat2x4), ("dmat3x2", .DMat3x2),
    ("dmat3x4", .DMat3x4), ("dmat4x2", .DMat4x2), ("dmat4x3", .DMat4x3),
    ("image1D", .Image1D), ("image2D", .Image2D), ("image2DMS", .Image2DMS),
    ("image3D", .Image3D), ("imageCube", .ImageCube),
    ("image1DArray", .Image1DArray), ("image2DArray", .Image2DArray),
    ("image2DMSArray", .Image2DMSArray), ("image3DArray", .Image3DArray),
    ("imageCubeArray", .ImageCubeArray), ("imageRect", .ImageRect),
    ("imageBuffer", .ImageBuffer) ]

/-- `typeStr`: first-match linear scan of `typeTab` by enumerator; an
enumerator with no row (only `Unknown`) yields the empty string. -/
def typeStr (t : VariableType) : String :=
  match typeTab.find? (fun p => decide (p.2 = t)) with
  | some p => p.1
  | none => ""

/-- `mapType`: first-match linear scan of `typeTab` by token; an unknown
token yields the `Unknown` sentinel. -/
def mapType (s : String) : VariableType :=
  match typeTab.find? (fun p => decide (p.1 = s)) with
  | some p => p.2
  | none => .Unknown

/-- The fixed ordered token table for image formats (`imageFormatTab`),
row for row from the source.  Note the source contains the token
"rgba16" twice: once for `ImageFormatRgba16f` and once for
`ImageFormatRgba16`. -/
def imageFormatTab : List (String × ImageFormat) :=
  [ ("unknown", .ImageFormatUnknown),
    ("rgba32f", .ImageFormatRgba32f),
    ("rgba16", .ImageFormatRgba16f),
    ("r32f", .ImageFormatR32f),
    ("rgba8", .ImageFormatRgba8),
    ("rgba8_snorm", .ImageFormatRgba8Snorm),
    ("rg32f", .ImageFormatRg32f),
    ("rg16f", .ImageFormatRg16f),
    ("r11f_g11f_b10f", .ImageFormatR11fG11fB10f),
    ("r16f", .ImageFormatR16f),
    ("rgba16", .ImageFormatRgba16),
    ("rgb10_a2", .ImageFormatRgb10A2),
    ("rg16", .ImageFormatRg16),
    ("rg8", .ImageFormatRg8),
    ("r16", .ImageFormatR16),
    ("r8", .ImageFormatR8),
    ("rgba16_snorm", .ImageFormatRgba16Snorm),
    ("rg16_snorm", .ImageFormatRg16Snorm),
    ("rg8_snorm", .ImageFormatRg8Snorm),
    ("r16_snorm", .ImageFormatR16Snorm),
    ("r8_snorm", .ImageFormatR8Snorm),
    ("rgba32i", .ImageFormatRgba32i),
    ("rgba16i", .ImageFormatRgba16i),
    ("rgba8i", .ImageFormatRgba8i),
    ("r32i", .ImageFormatR32i),
    ("rg32i", .ImageFormatRg32i),
    ("rg16i", .ImageFormatRg16i),
    ("rg8i", .ImageFormatRg8i),
    ("r16i", .ImageFormatR16i),
    ("r8i", .ImageFormatR8i),
    ("rgba32ui", .ImageFormatRgba32ui),
    ("rgba16ui", .ImageFormatRgba16ui),
    ("rgba8ui", .ImageFormatRgba8ui),
    ("r32ui", .ImageFormatR32ui),
    ("rgb10_a2ui", .ImageFormatRgb10a2ui),
    ("rg32ui", .ImageFormatRg32ui),
    ("rg16ui", .ImageFormatRg16ui),
    ("rg8ui", .ImageFormatRg8ui),
    ("r16ui", .ImageFormatR16ui),
    ("r8ui", .ImageFormatR8ui) ]

/-- `imageFormatStr`: first-match linear scan of `imageFormatTab` by
enumerator; an enumerator with no row yields the empty string. -/
def imageFormatStr (f : ImageFormat) : String :=
  match imageFormatTab.find? (fun p => decide (p.2 = f)) with
  | some p => p.1
  | none => ""

/-- `mapImageFormat`: first-match linear scan of `imageFormatTab` by
token; an unknown token yields the `ImageFormatUnknown` sentinel. -/
def mapImageFormat (s : String) : ImageFormat :=
  match imageFormatTab.find? (fun p => decide (p.1 = s)) with
  | some p => p.2
  | none => .ImageFormatUnknown

/-- QShaderDescription::InOutVariable.  Field defaults follow the data
model (header defaults): −1 for location/binding/descriptorSet meaning
absent, `ImageFormatUnknown` and 0 flags meaning absent.  The image-flag
bitmask is modelled as a natural number. -/
structure InOutVariable where
  name : String := ""
  type : VariableType := .Unknown
  location : Int := -1
  binding : Int := -1
  descriptorSet : Int := -1
  imageFormat : ImageFormat := .ImageFormatUnknown
  imageFlags : Nat := 0
deriving DecidableEq, Inhabited, Repr

/-- QShaderDescription::BlockVariable: a member of a uniform / push
constant / storage block; `structMembers` recurses when the member is a
struct.  Defaults: 0 strides, false row-major, empty dims/members. -/
inductive BlockVariable : Type where
  | mk (name : String) (type : VariableType) (offset : Int) (size : Int)
       (arrayDims : List Int) (arrayStride : Int) (matrixStride : Int)
       (matrixIsRowMajor : Bool) (structMembers : List BlockVariable)
deriving Inhabited

def BlockVariable.name : BlockVariable → String
  | .mk n _ _ _ _ _ _ _ _ => n

def BlockVariable.type : BlockVariable → VariableType
  | .mk _ t _ _ _ _ _ _ _ => t

def BlockVariable.offset : BlockVariable → Int
  | .mk _ _ o _ _ _ _ _ _ => o

def BlockVariable.size : BlockVariable → Int
  | .mk _ _ _ s _ _ _ _ _ => s

def BlockVariable.arrayDims : BlockVariable → List Int
  | .mk _ _ _ _ d _ _ _ _ => d

def BlockVariable.arrayStride : BlockVariable → Int
  | .mk _ _ _ _ _ a _ _ _ => a

def BlockVariable.matrixStride : BlockVariable → Int
  | .mk _ _ _ _ _ _ m _ _ => m

def BlockVariable.matrixIsRowMajor : BlockVariable → Bool
  | .mk _ _ _ _ _ _ _ r _ => r

def BlockVariable.structMembers : BlockVariable → List BlockVariable
  | .mk _ _ _ _ _ _ _ _ s => s

/-- QShaderDescription::UniformBlock. -/
structure UniformBlock where
  blockName : String := ""
  structName : String := ""
  size : Int := 0
  binding : Int := -1
  descriptorSet : Int := -1
  members : List BlockVariable := []
deriving Inhabited

/-- QShaderDescription::PushConstantBlock. -/
structure PushConstantBlock where
  name : String := ""
  size : Int := 0
  members : List BlockVariable := []
deriving Inhabited

/-- QShaderDescription::StorageBlock. -/
structure StorageBlock where
  blockName : String := ""
  instanceName : String := ""
  knownSize : Int := 0
  binding : Int := -1
  descriptorSet : Int := -1
  members : List BlockVariable := []
deriving Inhabited

/-- The QShaderDescription payload (QShaderDescriptionPrivate): the seven
ordered collections. A freshly constructed description has all of them
empty. -/
structure QShaderDescription where
  inVars : List InOutVariable := []
  outVars : List InOutVariable := []
  uniformBlocks : List UniformBlock := []
  pushConstantBlocks : List PushConstantBlock := []
  storageBlocks : List StorageBlock := []
  combinedImageSamplers : List InOutVariable := []
  storageImages : List InOutVariable := []
deriving Inhabited

/-- QShaderDescription::isValid: true iff at least one of the seven
collections is non-empty. -/
def QShaderDescription.isValid (d : QShaderDescription) : Bool :=
  !d.inVars.isEmpty || !d.outVars.isEmpty
    || !d.uniformBlocks.isEmpty || !d.pushConstantBlocks.isEmpty || !d.storageBlocks.isEmpty
    || !d.combinedImageSamplers.isEmpty || !d.storageImages.isEmpty

def nameKey : String := "name"
def typeKey : String := "type"
def locationKey : String := "location"
def bindingKey : String := "binding"
def setKey : String := "set"
def imageFormatKey : String := "imageFormat"
def imageFlagsKey : String := "imageFlags"
def offsetKey : String := "offset"
def arrayDimsKey : String := "arrayDims"
def arrayStrideKey : String := "arrayStride"
def matrixStrideKey : String := "matrixStride"
def matrixRowMajorKey : String := "matrixRowMajor"
def structMembersKey : String := "structMembers"
def membersKey : String := "members"
def inputsKey : String := "inputs"
def outputsKey : String := "outputs"
def uniformBlocksKey : String := "uniformBlocks"
def blockNameKey : String := "blockName"
def structNameKey : String := "structName"
def instanceNameKey : String := "instanceName"
def sizeKey : String := "size"
def knownSizeKey : String := "knownSize"
def pushConstantBlocksKey : String := "pushConstantBlocks"
def storageBlocksKey : String := "storageBlocks"
def combinedImageSamplersKey : String := "combinedImageSamplers"
def storageImagesKey : String := "storageImages"

/-- `addDeco`: the conditionally-present decoration entries of an in/out
variable object; a field equal to its absence sentinel is omitted. -/
def addDeco (v : InOutVariable) : List (String × JVal) :=
  (if 0 ≤ v.location then [(locationKey, .jint v.location)] else [])
    ++ (if 0 ≤ v.binding then [(bindingKey, .jint v.binding)] else [])
    ++ (if 0 ≤ v.descriptorSet then [(setKey, .jint v.descriptorSet)] else [])
    ++ (if v.imageFormat ≠ .ImageFormatUnknown then
          [(imageFormatKey, .jstr (imageFormatStr v.imageFormat))] else [])
    ++ (if v.imageFlags ≠ 0 then [(imageFlagsKey, .jint (v.imageFlags : Int))] else [])

/-- `inOutObject`: name and type token, then the decorations.  The same
object shape is built inline for combined image samplers and storage
images in `makeDoc`. -/
def inOutObject (v : InOutVariable) : JVal :=
  .jobj ([(nameKey, .jstr v.name), (typeKey, .jstr (typeStr v.type))] ++ addDeco v)

/-- `blockMemberObject`: name, type token, offset and size are always
written; array dims, strides, row-major flag and struct members are
written only when different from their defaults, recursing through the
same routine for nested struct members. -/
def blockMemberObject : BlockVariable → JVal
  | .mk name ty offset size arrayDims arrayStride matrixStride rowMajor structMembers =>
    .jobj ([(nameKey, .jstr name), (typeKey, .jstr (typeStr ty)),
            (offsetKey, .jint offset), (sizeKey, .jint size)]
      ++ (if arrayDims.isEmpty then [] else [(arrayDimsKey, .jarr (arrayDims.map JVal.jint))])
      ++ (if arrayStride ≠ 0 then [(arrayStrideKey, .jint arrayStride)] else [])
      ++ (if matrixStride ≠ 0 then [(matrixStrideKey, .jint matrixStride)] else [])
      ++ (if rowMajor then [(matrixRowMajorKey, .jbool true)] else [])
      ++ (if structMembers.isEmpty then [] else
            [(structMembersKey,
              .jarr (structMembers.attach.map (fun x => blockMemberObject x.1)))]))
decreasing_by
  simp only [BlockVariable.mk.sizeOf_spec]
  have := List.sizeOf_lt_of_mem x.2
  omega

/-- The uniform-block object of `makeDoc`: blockName, structName, size,
optional binding and set, then the members array (always present). -/
def uniformBlockObject (b : UniformBlock) : JVal :=
  .jobj ([(blockNameKey, .jstr b.blockName), (structNameKey, .jstr b.structName),
          (sizeKey, .jint b.size)]
    ++ (if 0 ≤ b.binding then [(bindingKey, .jint b.binding)] else [])
    ++ (if 0 ≤ b.descriptorSet then [(setKey, .jint b.descriptorSet)] else [])
    ++ [(membersKey, .jarr (b.members.map blockMemberObject))])

/-- The push-constant-block object of `makeDoc`: name, size, members. -/
def pushConstantBlockObject (b : PushConstantBlock) : JVal :=
  .jobj ([(nameKey, .jstr b.name), (sizeKey, .jint b.size),
          (membersKey, .jarr (b.members.map blockMemberObject))])

/-- The storage-block object of `makeDoc`: blockName, instanceName,
knownSize, optional binding and set, then the members array. -/
def storageBlockObject (b : StorageBlock) : JVal :=
  .jobj ([(blockNameKey, .jstr b.blockName), (instanceNameKey, .jstr b.instanceName),
          (knownSizeKey, .jint b.knownSize)]
    ++ (if 0 ≤ b.binding then [(bindingKey, .jint b.binding)] else [])
    ++ (if 0 ≤ b.descriptorSet then [(setKey, .jint b.descriptorSet)] else [])
    ++ [(membersKey, .jarr (b.members.map blockMemberObject))])

/-- `QShaderDescriptionPrivate::makeDoc`: the root object, with one entry
per collection, each omitted when the collection is empty. -/
def makeDoc (d : QShaderDescription) : JVal :=
  let jinputs := d.inVars.map inOutObject
  let joutputs := d.outVars.map inOutObject
  let juniformBlocks := d.uniformBlocks.map uniformBlockObject
  let jpushConstantBlocks := d.pushConstantBlocks.map pushConstantBlockObject
  let jstorageBlocks := d.storageBlocks.map storageBlockObject
  let jcombinedSamplers := d.combinedImageSamplers.map inOutObject
  let jstorageImages := d.storageImages.map inOutObject
  .jobj ((if jinputs.isEmpty then [] else [(inputsKey, .jarr jinputs)])
    ++ (if joutputs.isEmpty then [] else [(outputsKey, .jarr joutputs)])
    ++ (if juniformBlocks.isEmpty then [] else [(uniformBlocksKey, .jarr juniformBlocks)])
    ++ (if jpushConstantBlocks.isEmpty then [] else
          [(pushConstantBlocksKey, .jarr jpushConstantBlocks)])
    ++ (if jstorageBlocks.isEmpty then [] else [(storageBlocksKey, .jarr jstorageBlocks)])
    ++ (if jcombinedSamplers.isEmpty then [] else
          [(combinedImageSamplersKey, .jarr jcombinedSamplers)])
    ++ (if jstorageImages.isEmpty then [] else [(storageImagesKey, .jarr jstorageImages)]))

/-- Looked-up JSON values are smaller than the object holding them. -/
theorem sizeOf_of_jLookup {o : List (String × JVal)} {k : String} {v : JVal}
    (h : jLookup o k = some v) : sizeOf v < sizeOf o := by
  induction o with
  | nil => simp [jLookup] at h
  | cons p rest ih =>
    obtain ⟨k1, v1⟩ := p
    by_cases hk : k1 = k
    · simp [jLookup, hk] at h
      subst h
      simp
      omega
    · simp [jLookup, hk] at h
      have := ih h
      simp
      omega

/-- Elements of an array looked up inside an object are smaller than the
object. -/
theorem sizeOf_of_mem_jArr {o : List (String × JVal)} {k : String} {a : JVal}
    (h : a ∈ jArr (jLookup o k)) : sizeOf a < sizeOf o := by
  cases hl : jLookup o k with
  | none => rw [hl] at h; simp [jArr] at h
  | some v =>
    rw [hl] at h
    have hv := sizeOf_of_jLookup hl
    cases v with
    | jarr arr =>
      simp only [jArr] at h
      have := List.sizeOf_lt_of_mem h
      simp at hv
      omega
    | jstr s => simp [jArr] at h
    | jint n => simp [jArr] at h
    | jbool b => simp [jArr] at h
    | jobj f => simp [jArr] at h

/-- Converting a value to an object does not increase its size. -/
theorem sizeOf_jObj_some (a : JVal) : sizeOf (jObj (some a)) ≤ sizeOf a := by
  cases a <;> simp [jObj]

/-- `blockVar`: decoding one block-member object.  Name, type, offset and
size are read unconditionally (missing keys give the QJson defaults);
the optional entries only when present; struct members recurse. -/
def blockVarObj (o : List (String × JVal)) : BlockVariable :=
  .mk (jStr (jLookup o nameKey))
      (mapType (jStr (jLookup o typeKey)))
      (jInt (jLookup o offsetKey))
      (jInt (jLookup o sizeKey))
      (if (jLookup o arrayDimsKey).isSome then
         (jArr (jLookup o arrayDimsKey)).map (fun j => jInt (some j)) else [])
      (if (jLookup o arrayStrideKey).isSome then jInt (jLookup o arrayStrideKey) else 0)
      (if (jLookup o matrixStrideKey).isSome then jInt (jLookup o matrixStrideKey) else 0)
      (if (jLookup o matrixRowMajorKey).isSome then jBool (jLookup o matrixRowMajorKey) else false)
      (if (jLookup o structMembersKey).isSome then
         (jArr (jLookup o structMembersKey)).attach.map
           (fun x => blockVarObj (jObj (some x.1))) else [])
termination_by sizeOf o
decreasing_by
  have h1 := sizeOf_of_mem_jArr x.2
  have h2 := sizeOf_jObj_some x.1
  omega

/-- `inOutVar`: decoding one in/out-variable object; a missing decoration
key leaves the default-constructed sentinel in place. -/
def inOutVar (o : List (String × JVal)) : InOutVariable :=
  { name := jStr (jLookup o nameKey)
    type := mapType (jStr (jLookup o typeKey))
    location := if (jLookup o locationKey).isSome then jInt (jLookup o locationKey) else -1
    binding := if (jLookup o bindingKey).isSome then jInt (jLookup o bindingKey) else -1
    descriptorSet := if (jLookup o setKey).isSome then jInt (jLookup o setKey) else -1
    imageFormat := if (jLookup o imageFormatKey).isSome then
        mapImageFormat (jStr (jLookup o imageFormatKey)) else .ImageFormatUnknown
    imageFlags := if (jLookup o imageFlagsKey).isSome then
        (jInt (jLookup o imageFlagsKey)).toNat else 0 }

/-- Decoding one uniform-block object of `loadDoc`. -/
def loadUniformBlock (j : JVal) : UniformBlock :=
  let o := jObj (some j)
  { blockName := jStr (jLookup o blockNameKey)
    structName := jStr (jLookup o structNameKey)
    size := jInt (jLookup o sizeKey)
    binding := if (jLookup o bindingKey).isSome then jInt (jLookup o bindingKey) else -1
    descriptorSet := if (jLookup o setKey).isSome then jInt (jLookup o setKey) else -1
    members := (jArr (jLookup o membersKey)).map (fun m => blockVarObj (jObj (some m))) }

/-- Decoding one push-constant-block object of `loadDoc`. -/
def loadPushConstantBlock (j : JVal) : PushConstantBlock :=
  let o := jObj (some j)
  { name := jStr (jLookup o nameKey)
    size := jInt (jLookup o sizeKey)
    members := (jArr (jLookup o membersKey)).map (fun m => blockVarObj (jObj (some m))) }

/-- Decoding one storage-block object of `loadDoc`. -/
def loadStorageBlock (j : JVal) : StorageBlock :=
  let o := jObj (some j)
  { blockName := jStr (jLookup o blockNameKey)
    instanceName := jStr (jLookup o instanceNameKey)
    knownSize := jInt (jLookup o knownSizeKey)
    binding := if (jLookup o bindingKey).isSome then jInt (jLookup o bindingKey) else -1
    descriptorSet := if (jLookup o setKey).isSome then jInt (jLookup o setKey) else -1
    members := (jArr (jLookup o membersKey)).map (fun m => blockVarObj (jObj (some m))) }

/-- `QShaderDescriptionPrivate::loadDoc`: `none` models a null
QJsonDocument (absent or corrupt input), on which the routine only logs
a warning and leaves the freshly constructed description untouched; a
present document has every collection rebuilt from its root entry when
that entry exists, and left empty otherwise. -/
def loadDoc : Option JVal → QShaderDescription
  | none => {}
  | some doc =>
    let root := jObj (some doc)
    { inVars := if (jLookup root inputsKey).isSome then
        (jArr (jLookup root inputsKey)).map (fun j => inOutVar (jObj (some j))) else []
      outVars := if (jLookup root outputsKey).isSome then
        (jArr (jLookup root outputsKey)).map (fun j => inOutVar (jObj (some j))) else []
      uniformBlocks := if (jLookup root uniformBlocksKey).isSome then
        (jArr (jLookup root uniformBlocksKey)).map loadUniformBlock else []
      pushConstantBlocks := if (jLookup root pushConstantBlocksKey).isSome then
        (jArr (jLookup root pushConstantBlocksKey)).map loadPushConstantBlock else []
      storageBlocks := if (jLookup root storageBlocksKey).isSome then
        (jArr (jLookup root storageBlocksKey)).map loadStorageBlock else []
      combinedImageSamplers := if (jLookup root combinedImageSamplersKey).isSome then
        (jArr (jLookup root combinedImageSamplersKey)).map (fun j => inOutVar (jObj (some j))) else []
      storageImages := if (jLookup root storageImagesKey).isSome then
        (jArr (jLookup root storageImagesKey)).map (fun j => inOutVar (jObj (some j))) else [] }

/-- QShaderDescription::fromBinaryJson composed with the external binary
parser: the byte-level QJsonDocument::fromBinaryData step is library
code outside these sources, so its outcome is taken as an already-parsed
`Option JVal`, `none` standing for an absent or corrupt binary document. -/
def fromBinaryJson (parsed : Option JVal) : QShaderDescription :=
  loadDoc parsed

end QtShaderDescription

namespace QtRhiNull

/-- A pixel size (QSize with non-negative components). -/
structure QSize where
  w : Nat
  h : Nat
deriving DecidableEq, Inhabited, Repr

/-- QSize::isEmpty: a dimension of zero makes the size empty. -/
def QSize.isEmpty (s : QSize) : Bool :=
  s.w == 0 || s.h == 0

/-- QRhi::FrameOpResult. -/
inductive FrameOpResult : Type where
  | FrameOpSuccess
  | FrameOpError
  | FrameOpSwapChainOutOfDate
  | FrameOpDeviceLost
deriving DecidableEq, Inhabited, Repr

/-- The accounting events the null backend forwards to the profiling
sink (QRhiProfiler). -/
inductive ProfEvent : Type where
  | newBuffer (size : Int) (slotCount : Nat) (extra : Nat)
  | newRenderBuffer (transientBacking : Bool) (winSysBacking : Bool) (sampleCount : Nat)
  | newTexture (owns : Bool) (mipCount : Nat) (layerCount : Nat) (sampleCount : Nat)
  | resizeSwapChain (bufferCount : Nat) (msaaBufferCount : Nat) (sampleCount : Nat)
  | beginSwapChainFrame
  | endSwapChainFrame (frameCount : Nat)
  | swapChainFrameGpuTime
  | releaseBuffer
  | releaseRenderBuffer
  | releaseTexture
  | releaseSwapChain
deriving DecidableEq, Inhabited, Repr

/-- QRhiBuffer::Type. -/
inductive BufferType : Type where
  | Immutable | Static | Dynamic
deriving DecidableEq, Inhabited, Repr

/-- Construction parameters of a QNullBuffer: fixed at the factory call
(createBuffer); usage is a bitmask. -/
structure BufferConfig where
  type : BufferType
  usage : Nat
  size : Int
deriving DecidableEq, Inhabited, Repr

/-- QNullBuffer::build: forwards `newBuffer(this, m_size, 1, 0)` to the
profiling sink and returns true unconditionally. -/
def QNullBuffer.build (b : BufferConfig) : Bool × ProfEvent :=
  (true, .newBuffer b.size 1 0)

/-- QRhiRenderBuffer::Type. -/
inductive RenderBufferType : Type where
  | DepthStencil | Color
deriving DecidableEq, Inhabited, Repr

/-- Construction parameters of a QNullRenderBuffer. -/
structure RenderBufferConfig where
  type : RenderBufferType
  pixelSize : QSize
  sampleCount : Nat
  flags : Nat
deriving DecidableEq, Inhabited, Repr

/-- QNullRenderBuffer::build: forwards `newRenderBuffer(this, false,
false, 1)` and returns true unconditionally. -/
def QNullRenderBuffer.build (_b : RenderBufferConfig) : Bool × ProfEvent :=
  (true, .newRenderBuffer false false 1)

/-- The texture formats used by the readback model.  The full
QRhiTexture::Format enumeration lives in the frontend header, outside
these sources; this covers its uncompressed formats. -/
inductive TextureFormat : Type where
  | RGBA8 | BGRA8 | R8 | R16 | RED_OR_ALPHA8
  | RGBA16F | RGBA32F | R16F | R32F
  | D16 | D32F
deriving DecidableEq, Inhabited, Repr

/-- Construction parameters of a QNullTexture; `cubeMap` and `mipMapped`
stand for `m_flags.testFlag(CubeMap)` / `m_flags.testFlag(MipMapped)`. -/
structure TextureConfig where
  format : TextureFormat
  pixelSize : QSize
  sampleCount : Nat
  cubeMap : Bool
  mipMapped : Bool
deriving DecidableEq, Inhabited, Repr

/-- QNullTexture::build: derives the mip level count (`qCeil(log2(max(w,
h))) + 1`, embedded as the ceiling base-2 logarithm on naturals) and the
layer count for the profiling event, then returns true unconditionally. -/
def QNullTexture.build (t : TextureConfig) : Bool × ProfEvent :=
  let isCube := t.cubeMap
  let hasMipMaps := t.mipMapped
  let size := if t.pixelSize.isEmpty then QSize.mk 1 1 else t.pixelSize
  let mipLevelCount := if hasMipMaps then Nat.clog 2 (max size.w size.h) + 1 else 1
  (true, .newTexture true mipLevelCount (if isCube then 6 else 1) 1)

/-- QNullSampler::build: returns true unconditionally. -/
def QNullSampler.build : Bool := true

/-- QNullShaderResourceBindings::build: returns true unconditionally. -/
def QNullShaderResourceBindings.build : Bool := true

/-- QNullGraphicsPipeline::build: returns true unconditionally. -/
def QNullGraphicsPipeline.build : Bool := true

/-- QNullComputePipeline::build: returns true unconditionally. -/
def QNullComputePipeline.build : Bool := true

/-- Attachment sizes of a texture-render-target description: the pixel
size of each color attachment (texture or render buffer), and of the
optional depth-stencil buffer / depth texture. -/
structure TextureRenderTargetDesc where
  colorAttachmentSizes : List QSize
  depthStencilBufferSize : Option QSize
  depthTextureSize : Option QSize
deriving DecidableEq, Inhabited, Repr

/-- QNullTextureRenderTarget::build: derives the target pixel size from
the first available attachment (color first, then depth-stencil buffer,
then depth texture, else the previous value is kept) and returns true
unconditionally. -/
def QNullTextureRenderTarget.build (prev : QSize) (desc : TextureRenderTargetDesc) :
    QSize × Bool :=
  match desc.colorAttachmentSizes with
  | sz :: _ => (sz, true)
  | [] =>
    match desc.depthStencilBufferSize with
    | some sz => (sz, true)
    | none =>
      match desc.depthTextureSize with
      | some sz => (sz, true)
      | none => (prev, true)

/-- The mutable state of a QNullSwapChain: its frame counter, its current
pixel size, and the pixel size of its reference render target
(`rt.d.pixelSize`). -/
structure QNullSwapChain where
  frameCount : Nat := 0
  currentPixelSize : QSize := QSize.mk 0 0
  rtPixelSize : QSize := QSize.mk 0 0
deriving DecidableEq, Inhabited, Repr

/-- QNullSwapChain::surfacePixelSize: always 1280×720, regardless of
state. -/
def QNullSwapChain.surfacePixelSize (_sc : QNullSwapChain) : QSize :=
  QSize.mk 1280 720

/-- QNullSwapChain::buildOrResize: re-derives the current pixel size from
`surfacePixelSize()`, propagates it to the reference render target,
resets the frame counter to zero, forwards `resizeSwapChain(this, 1, 0,
1)` to the profiling sink and returns true. -/
def QNullSwapChain.buildOrResize (sc : QNullSwapChain) :
    QNullSwapChain × Bool × ProfEvent :=
  let ps := sc.surfacePixelSize
  ({ sc with currentPixelSize := ps, rtPixelSize := ps, frameCount := 0 },
   true, .resizeSwapChain 1 0 1)

/-- The device-side state of QRhiNull relevant to the frame lifecycle:
the swapchain and whether `currentSwapChain` is set (a frame is being
recorded on it). -/
structure QRhiNullState where
  sc : QNullSwapChain := {}
  currentSwapChain : Bool := false
deriving DecidableEq, Inhabited, Repr

/-- QRhiNull::beginFrame: records the swapchain as current, forwards
`beginSwapChainFrame` and returns FrameOpSuccess. -/
def QRhiNull.beginFrame (s : QRhiNullState) :
    QRhiNullState × FrameOpResult × ProfEvent :=
  ({ s with currentSwapChain := true }, .FrameOpSuccess, .beginSwapChainFrame)

/-- QRhiNull::endFrame: forwards `endSwapChainFrame(swapchain, frameCount
+ 1)` and a gpu-time event, increments the swapchain's frame counter,
clears the current swapchain and returns FrameOpSuccess. -/
def QRhiNull.endFrame (s : QRhiNullState) :
    QRhiNullState × FrameOpResult × List ProfEvent :=
  ({ s with sc := { s.sc with frameCount := s.sc.frameCount + 1 },
            currentSwapChain := false },
   .FrameOpSuccess,
   [.endSwapChainFrame (s.sc.frameCount + 1), .swapChainFrameGpuTime])

/-- QRhiNull::beginOffscreenFrame (the backend hook): hands out the
offscreen command buffer and returns FrameOpSuccess unconditionally; the
frame-state bookkeeping lives in the frontend. -/
def QRhiNull.beginOffscreenFrame (s : QRhiNullState) : QRhiNullState × FrameOpResult :=
  (s, .FrameOpSuccess)

/-- The recording contexts a device can be in: at most one is active at
any time. -/
inductive RecordingContext : Type where
  | idle
  | swapChainFrame
  | offscreenFrame
deriving DecidableEq, Inhabited, Repr

/-- Modelled from the spec: the frame-lifecycle guard of the device
frontend (QRhi::beginOffscreenFrame in qrhi.cpp, which is not among the
sources; only the backend hook `QRhiNull::beginOffscreenFrame` is).  Per
the spec, swapchain frames and offscreen frames are mutually exclusive —
one active recording context per device — and starting an offscreen
frame while a frame is already active is disallowed, not silently
tolerated: the attempt is rejected (no successful transition) and the
recording context is unchanged. -/
def QRhi.beginOffscreenFrame : RecordingContext → RecordingContext × Bool
  | .idle => (.offscreenFrame, true)
  | s => (s, false)

/-- Modelled from the spec: bytes-per-texel of each (uncompressed)
texture format, the per-format constant used by the frontend byte-size
helper `textureFormatInfo` (qrhi.cpp, not among these sources).  The
spec pins a readback payload to width × height × bytes-per-texel of the
declared format. -/
def bytesPerTexel : TextureFormat → Nat
  | .RGBA8 => 4
  | .BGRA8 => 4
  | .R8 => 1
  | .R16 => 2
  | .RED_OR_ALPHA8 => 1
  | .RGBA16F => 8
  | .RGBA32F => 16
  | .R16F => 2
  | .R32F => 4
  | .D16 => 2
  | .D32F => 4

/-- Modelled from the spec: `QRhiImplementation::sizeForMipLevel`
(qrhi.cpp, not among these sources) — width and height at the requested
mip level: each base dimension halved per level, floored at one texel. -/
def sizeForMipLevel (level : Nat) (sz : QSize) : QSize :=
  QSize.mk (max 1 (sz.w >>> level)) (max 1 (sz.h >>> level))

/-- Byte size of an image as computed by `textureFormatInfo` for
uncompressed formats: width × height × bytes-per-texel. -/
def textureFormatByteSize (f : TextureFormat) (sz : QSize) : Nat :=
  sz.w * sz.h * bytesPerTexel f

/-- A queued texture-readback operation: the source texture's declared
format and base pixel size together with the requested mip level, or
`none` to read the swapchain's current backbuffer. -/
structure ReadbackDescription where
  texture : Option (TextureFormat × QSize)
  level : Nat
deriving DecidableEq, Inhabited, Repr

/-- The synthesized result of a readback. -/
structure ReadbackResult where
  format : TextureFormat
  pixelSize : QSize
  data : List Nat
deriving DecidableEq, Inhabited, Repr

/-- The texture-readback branch of QRhiNull::resourceUpdate: the result
format and pixel size are taken from the texture (size at the requested
mip level) or, when reading the swapchain backbuffer directly, fixed as
RGBA8 at the swapchain's current size; the payload is zero-filled to the
computed byte size (`result->data.fill(0, byteSize)`), and the
completion callback fires immediately. -/
def QRhiNull.readbackResult (currentSwapChainPixelSize : QSize)
    (rb : ReadbackDescription) : ReadbackResult :=
  match rb.texture with
  | some (fmt, sz) =>
    let ps := sizeForMipLevel rb.level sz
    { format := fmt, pixelSize := ps,
      data := List.replicate (textureFormatByteSize fmt ps) 0 }
  | none =>
    { format := .RGBA8, pixelSize := currentSwapChainPixelSize,
      data := List.replicate (textureFormatByteSize .RGBA8 currentSwapChainPixelSize) 0 }

end QtRhiNull

namespace QtShaderDescription

/-- The data-model constraints on an in/out variable: −1 is the only
negative ("absent") value of the decoration ints, and the image format
avoids `ImageFormatRgba16`, the second enumerator of the two table rows
sharing the literal token "rgba16". -/
@[reducible] def InOutVariable.wellFormed (v : InOutVariable) : Prop :=
  -1 ≤ v.location ∧ -1 ≤ v.binding ∧ -1 ≤ v.descriptorSet ∧
    v.imageFormat ≠ ImageFormat.ImageFormatRgba16

/-- The data-model constraints on a uniform block: −1 is the only
negative value of binding and set. -/
@[reducible] def UniformBlock.wellFormed (b : UniformBlock) : Prop :=
  -1 ≤ b.binding ∧ -1 ≤ b.descriptorSet

/-- The data-model constraints on a storage block: −1 is the only
negative value of binding and set. -/
@[reducible] def StorageBlock.wellFormed (b : StorageBlock) : Prop :=
  -1 ≤ b.binding ∧ -1 ≤ b.descriptorSet

/-- A description respecting the documented data model in every
collection. -/
@[reducible] def QShaderDescription.wellFormed (d : QShaderDescription) : Prop :=
  (∀ v ∈ d.inVars, v.wellFormed) ∧ (∀ v ∈ d.outVars, v.wellFormed) ∧
  (∀ b ∈ d.uniformBlocks, b.wellFormed) ∧ (∀ b ∈ d.storageBlocks, b.wellFormed) ∧
  (∀ v ∈ d.combinedImageSamplers, v.wellFormed) ∧ (∀ v ∈ d.storageImages, v.wellFormed)

/-- The worked example of the source documentation: one vec3 input at
location 1 and a uniform block with a mat4 member (matrixStride 16) and
a float member. -/
def exampleDescription : QShaderDescription :=
  { inVars := [{ name := "color", type := .Vec3, location := 1 }]
    uniformBlocks := [
      { blockName := "buf"
        structName := "ubuf"
        size := 68
        binding := 0
        descriptorSet := 0
        members := [BlockVariable.mk "mvp" .Mat4 0 64 [] 0 16 false [],
                    BlockVariable.mk "opacity" .Float 64 4 [] 0 0 false []] }] }

/-- A description holding one storage image whose declared format is
`ImageFormatRgba16`, the enumerator whose token "rgba16" collides with
`ImageFormatRgba16f` in the table. -/
def rgba16Description : QShaderDescription :=
  { storageImages := [
      { name := "img"
        type := .Image2D
        binding := 0
        descriptorSet := 0
        imageFormat := .ImageFormatRgba16 }] }

theorem mapType_typeStr_eq (t : VariableType) : mapType (typeStr t) = t := by
  cases t <;> rfl

theorem mapImageFormat_imageFormatStr_eq (f : ImageFormat)
    (h : f ≠ .ImageFormatRgba16) : mapImageFormat (imageFormatStr f) = f := by
  cases f <;> first | rfl | exact absurd rfl h

theorem jLookup_cons_eq (k : String) (v : JVal) (rest : List (String × JVal)) :
    jLookup ((k, v) :: rest) k = some v := by
  simp [jLookup]

theorem jLookup_cons_ne {k1 k : String} (h : ¬ k1 = k) (v : JVal)
    (rest : List (String × JVal)) :
    jLookup ((k1, v) :: rest) k = jLookup rest k := by
  simp [jLookup, h]

theorem jLookup_append_none {l1 : List (String × JVal)} {k : String}
    (h : jLookup l1 k = none) (l2 : List (String × JVal)) :
    jLookup (l1 ++ l2) k = jLookup l2 k := by
  induction l1 with
  | nil => simp
  | cons p rest ih =>
    obtain ⟨k1, v1⟩ := p
    by_cases hk : k1 = k
    · subst hk
      rw [jLookup_cons_eq] at h
      exact absurd h (by simp)
    · rw [jLookup_cons_ne hk] at h
      rw [List.cons_append, jLookup_cons_ne hk]
      exact ih h

theorem jLookup_append_some {l1 l2 : List (String × JVal)} {k : String} {v : JVal}
    (h : jLookup l1 k = some v) :
    jLookup (l1 ++ l2) k = some v := by
  induction l1 with
  | nil => simp [jLookup] at h
  | cons p rest ih =>
    obtain ⟨k1, v1⟩ := p
    by_cases hk : k1 = k
    · subst hk
      rw [jLookup_cons_eq] at h
      rw [List.cons_append, jLookup_cons_eq]
      exact h
    · rw [jLookup_cons_ne hk] at h
      rw [List.cons_append, jLookup_cons_ne hk]
      exact ih h

theorem jLookup_append_eq_none {l1 l2 : List (String × JVal)} {k : String}
    (h1 : jLookup l1 k = none) (h2 : jLookup l2 k = none) :
    jLookup (l1 ++ l2) k = none := by
  rw [jLookup_append_none h1]
  exact h2

theorem jLookup_ite_singleton_ne {c : Prop} [Decidable c] {k1 k : String}
    (h : ¬ k1 = k) (v : JVal) :
    jLookup (if c then [(k1, v)] else []) k = none := by
  by_cases hc : c <;> simp [hc, jLookup, h]

theorem jLookup_ite_singleton_eq (c : Prop) [Decidable c] (k : String) (v : JVal) :
    jLookup (if c then [(k, v)] else []) k = if c then some v else none := by
  by_cases hc : c <;> simp [hc, jLookup]

theorem isEmpty_map {α β : Type} (f : α → β) (l : List α) :
    (l.map f).isEmpty = l.isEmpty := by
  cases l <;> simp

theorem inOutObject_name (v : InOutVariable) :
    jLookup (jObj (some (inOutObject v))) nameKey = some (JVal.jstr v.name) := by
  simp [inOutObject, jObj, jLookup]

theorem inOutObject_type (v : InOutVariable) :
    jLookup (jObj (some (inOutObject v))) typeKey = some (JVal.jstr (typeStr v.type)) := by
  simp [inOutObject, jObj, jLookup, nameKey, typeKey]

theorem inOutObject_location (v : InOutVariable) :
    jLookup (jObj (some (inOutObject v))) locationKey =
      if 0 ≤ v.location then some (JVal.jint v.location) else none := by
  simp only [inOutObject, jObj, addDeco]
  split_ifs <;> simp_all [jLookup, nameKey, typeKey, locationKey, bindingKey, setKey,
    imageFormatKey, imageFlagsKey]

theorem inOutObject_binding (v : InOutVariable) :
    jLookup (jObj (some (inOutObject v))) bindingKey =
      if 0 ≤ v.binding then some (JVal.jint v.binding) else none := by
  simp only [inOutObject, jObj, addDeco]
  split_ifs <;> simp_all [jLookup, nameKey, typeKey, locationKey, bindingKey, setKey,
    imageFormatKey, imageFlagsKey]

theorem inOutObject_set (v : InOutVariable) :
    jLookup (jObj (some (inOutObject v))) setKey =
      if 0 ≤ v.descriptorSet then some (JVal.jint v.descriptorSet) else none := by
  simp only [inOutObject, jObj, addDeco]
  split_ifs <;> simp_all [jLookup, nameKey, typeKey, locationKey, bindingKey, setKey,
    imageFormatKey, imageFlagsKey]

theorem inOutObject_imageFormat (v : InOutVariable) :
    jLookup (jObj (some (inOutObject v))) imageFormatKey =
      if v.imageFormat ≠ ImageFormat.ImageFormatUnknown then
        some (JVal.jstr (imageFormatStr v.imageFormat)) else none := by
  simp only [inOutObject, jObj, addDeco]
  split_ifs <;> simp_all [jLookup, nameKey, typeKey, locationKey, bindingKey, setKey,
    imageFormatKey, imageFlagsKey]

theorem inOutObject_imageFlags (v : InOutVariable) :
    jLookup (jObj (some (inOutObject v))) imageFlagsKey =
      if v.imageFlags ≠ 0 then some (JVal.jint (v.imageFlags : Int)) else none := by
  simp only [inOutObject, jObj, addDeco]
  split_ifs <;> simp_all [jLookup, nameKey, typeKey, locationKey, bindingKey, setKey,
    imageFormatKey, imageFlagsKey]

/-- Decoding inverts encoding for a single in/out variable, provided the
decoration ints respect the data model (−1 is the only negative,
"absent" value) and the image format is not the second enumerator of the
colliding "rgba16" table rows. -/
theorem inOutVar_inOutObject (v : InOutVariable) (hl : -1 ≤ v.location)
    (hb : -1 ≤ v.binding) (hd : -1 ≤ v.descriptorSet)
    (hf : v.imageFormat ≠ ImageFormat.ImageFormatRgba16) :
    inOutVar (jObj (some (inOutObject v))) = v := by
  unfold inOutVar
  rw [inOutObject_name, inOutObject_type, inOutObject_location, inOutObject_binding,
      inOutObject_set, inOutObject_imageFormat, inOutObject_imageFlags]
  obtain ⟨n, t, l, b, ds, f, fl⟩ := v
  simp only at hl hb hd hf ⊢
  simp only [jStr, InOutVariable.mk.injEq]
  refine ⟨trivial, mapType_typeStr_eq t, ?_, ?_, ?_, ?_, ?_⟩
  · by_cases h : (0 : Int) ≤ l
    · simp [h, jInt]
    · rw [if_neg h]
      show (-1 : Int) = l
      omega
  · by_cases h : (0 : Int) ≤ b
    · simp [h, jInt]
    · rw [if_neg h]
      show (-1 : Int) = b
      omega
  · by_cases h : (0 : Int) ≤ ds
    · simp [h, jInt]
    · rw [if_neg h]
      show (-1 : Int) = ds
      omega
  · by_cases h : f = ImageFormat.ImageFormatUnknown
    · simp [h]
    · simp only [ne_eq, h, not_false_eq_true, if_true, Option.isSome_some, jStr]
      exact mapImageFormat_imageFormatStr_eq f hf
  · by_cases h : fl = 0
    · simp [h]
    · simp [h, jInt]

theorem blockMemberObject_name (b : BlockVariable) :
    jLookup (jObj (some (blockMemberObject b))) nameKey = some (JVal.jstr b.name) := by
  obtain ⟨n, t, o, s, d, a, m, r, sm⟩ := b
  simp [blockMemberObject, BlockVariable.name, jObj, jLookup]

theorem blockMemberObject_type (b : BlockVariable) :
    jLookup (jObj (some (blockMemberObject b))) typeKey =
      some (JVal.jstr (typeStr b.type)) := by
  obtain ⟨n, t, o, s, d, a, m, r, sm⟩ := b
  simp [blockMemberObject, BlockVariable.type, jObj, jLookup, nameKey, typeKey]

theorem blockMemberObject_offset (b : BlockVariable) :
    jLookup (jObj (some (blockMemberObject b))) offsetKey = some (JVal.jint b.offset) := by
  obtain ⟨n, t, o, s, d, a, m, r, sm⟩ := b
  simp [blockMemberObject, BlockVariable.offset, jObj, jLookup, nameKey, typeKey, offsetKey]

theorem blockMemberObject_size (b : BlockVariable) :
    jLookup (jObj (some (blockMemberObject b))) sizeKey = some (JVal.jint b.size) := by
  obtain ⟨n, t, o, s, d, a, m, r, sm⟩ := b
  simp [blockMemberObject, BlockVariable.size, jObj, jLookup, nameKey, typeKey, offsetKey,
    sizeKey]

theorem blockMemberObject_arrayDims (b : BlockVariable) :
    jLookup (jObj (some (blockMemberObject b))) arrayDimsKey =
      if b.arrayDims.isEmpty then none
      else some (JVal.jarr (b.arrayDims.map JVal.jint)) := by
  obtain ⟨n, t, o, s, d, a, m, r, sm⟩ := b
  simp only [blockMemberObject, BlockVariable.arrayDims, jObj]
  split_ifs <;> simp_all [jLookup, nameKey, typeKey, offsetKey, sizeKey, arrayDimsKey,
    arrayStrideKey, matrixStrideKey, matrixRowMajorKey, structMembersKey]

theorem blockMemberObject_arrayStride (b : BlockVariable) :
    jLookup (jObj (some (blockMemberObject b))) arrayStrideKey =
      if b.arrayStride ≠ 0 then some (JVal.jint b.arrayStride) else none := by
  obtain ⟨n, t, o, s, d, a, m, r, sm⟩ := b
  simp only [blockMemberObject, BlockVariable.arrayStride, jObj]
  split_ifs <;> simp_all [jLookup, nameKey, typeKey, offsetKey, sizeKey, arrayDimsKey,
    arrayStrideKey, matrixStrideKey, matrixRowMajorKey, structMembersKey]

theorem blockMemberObject_matrixStride (b : BlockVariable) :
    jLookup (jObj (some (blockMemberObject b))) matrixStrideKey =
      if b.matrixStride ≠ 0 then some (JVal.jint b.matrixStride) else none := by
  obtain ⟨n, t, o, s, d, a, m, r, sm⟩ := b
  simp only [blockMemberObject, BlockVariable.matrixStride, jObj]
  split_ifs <;> simp_all [jLookup, nameKey, typeKey, offsetKey, sizeKey, arrayDimsKey,
    arrayStrideKey, matrixStrideKey, matrixRowMajorKey, structMembersKey]

theorem blockMemberObject_rowMajor (b : BlockVariable) :
    jLookup (jObj (some (blockMemberObject b))) matrixRowMajorKey =
      if b.matrixIsRowMajor then some (JVal.jbool true) else none := by
  obtain ⟨n, t, o, s, d, a, m, r, sm⟩ := b
  simp only [blockMemberObject, BlockVariable.matrixIsRowMajor, jObj]
  split_ifs <;> simp_all [jLookup, nameKey, typeKey, offsetKey, sizeKey, arrayDimsKey,
    arrayStrideKey, matrixStrideKey, matrixRowMajorKey, structMembersKey]

theorem blockMemberObject_structMembers (b : BlockVariable) :
    jLookup (jObj (some (blockMemberObject b))) structMembersKey =
      if b.structMembers.isEmpty then none
      else some (JVal.jarr (b.structMembers.map blockMemberObject)) := by
  obtain ⟨n, t, o, s, d, a, m, r, sm⟩ := b
  simp only [blockMemberObject, BlockVariable.structMembers, jObj, List.attach_map_val]
  split_ifs <;> simp_all [jLookup, nameKey, typeKey, offsetKey, sizeKey, arrayDimsKey,
    arrayStrideKey, matrixStrideKey, matrixRowMajorKey, structMembersKey]

/-- Strong induction over `BlockVariable` through the nested member
lists. -/
theorem bv_induction (P : BlockVariable → Prop)
    (h : ∀ n t o s d a m r sm, (∀ x ∈ sm, P x) → P (.mk n t o s d a m r sm)) :
    ∀ v, P v := by
  have key : ∀ (k : Nat) (v : BlockVariable), sizeOf v ≤ k → P v := by
    intro k
    induction k with
    | zero =>
      intro v hv
      obtain ⟨n, t, o, s, d, a, m, r, sm⟩ := v
      simp only [BlockVariable.mk.sizeOf_spec] at hv
      omega
    | succ k ih =>
      intro v hv
      obtain ⟨n, t, o, s, d, a, m, r, sm⟩ := v
      apply h
      intro x hx
      apply ih
      have hlt := List.sizeOf_lt_of_mem hx
      simp only [BlockVariable.mk.sizeOf_spec] at hv
      omega
  intro v
  exact key (sizeOf v) v le_rfl

/-- Decoding inverts encoding for a block member, unconditionally: every
optional entry's presence condition coincides with its decode default. -/
theorem blockVarObj_blockMemberObject (v : BlockVariable) :
    blockVarObj (jObj (some (blockMemberObject v))) = v := by
  induction v using bv_induction with
  | h n t o s d a m r sm ih =>
    rw [blockVarObj]
    rw [blockMemberObject_name, blockMemberObject_type, blockMemberObject_offset,
        blockMemberObject_size, blockMemberObject_arrayDims, blockMemberObject_arrayStride,
        blockMemberObject_matrixStride, blockMemberObject_rowMajor,
        blockMemberObject_structMembers]
    simp only [BlockVariable.name, BlockVariable.type, BlockVariable.offset,
      BlockVariable.size, BlockVariable.arrayDims, BlockVariable.arrayStride,
      BlockVariable.matrixStride, BlockVariable.matrixIsRowMajor,
      BlockVariable.structMembers, BlockVariable.mk.injEq]
    refine ⟨by simp [jStr], mapType_typeStr_eq t, by simp [jInt], by simp [jInt],
      ?_, ?_, ?_, ?_, ?_⟩
    · by_cases hd : d.isEmpty
      · simp [hd, List.isEmpty_iff.mp hd]
      · have heq : d.isEmpty = false := by simpa using hd
        rw [heq]
        simp only [Bool.false_eq_true, if_false, Option.isSome_some, if_true, jArr,
          List.map_map]
        have hfun : ((fun j => jInt (some j)) ∘ JVal.jint) = fun x : Int => x := by
          funext x
          simp [jInt, Function.comp]
        rw [hfun]
        simp
    · by_cases ha : a = 0
      · simp [ha]
      · simp [ha, jInt]
    · by_cases hm : m = 0
      · simp [hm]
      · simp [hm, jInt]
    · by_cases hr : r
      · simp [hr, jBool]
      · simp [hr]
    · by_cases hsm : sm.isEmpty
      · simp [hsm, List.isEmpty_iff.mp hsm]
      · rw [if_neg hsm]
        have hattach : ∀ L : List JVal,
            L.attach.map (fun x => blockVarObj (jObj (some x.1)))
              = L.map (fun j => blockVarObj (jObj (some j))) :=
          fun L => List.attach_map_val L (fun j => blockVarObj (jObj (some j)))
        simp only [Option.isSome_some, if_true, jArr, hattach, List.map_map,
          Function.comp_def]
        rw [List.map_congr_left (fun x hx => ih x hx)]
        simp

/-- Decoding the encoded members array of a block recovers the original
member list. -/
theorem decode_members_map (ms : List BlockVariable) :
    (ms.map blockMemberObject).map (fun m => blockVarObj (jObj (some m))) = ms := by
  rw [List.map_map]
  simp only [Function.comp_def]
  rw [List.map_congr_left (fun x _ => blockVarObj_blockMemberObject x)]
  simp

theorem uniformBlockObject_lookups (b : UniformBlock) :
    jLookup (jObj (some (uniformBlockObject b))) blockNameKey = some (JVal.jstr b.blockName) ∧
    jLookup (jObj (some (uniformBlockObject b))) structNameKey = some (JVal.jstr b.structName) ∧
    jLookup (jObj (some (uniformBlockObject b))) sizeKey = some (JVal.jint b.size) ∧
    jLookup (jObj (some (uniformBlockObject b))) bindingKey =
      (if 0 ≤ b.binding then some (JVal.jint b.binding) else none) ∧
    jLookup (jObj (some (uniformBlockObject b))) setKey =
      (if 0 ≤ b.descriptorSet then some (JVal.jint b.descriptorSet) else none) ∧
    jLookup (jObj (some (uniformBlockObject b))) membersKey =
      some (JVal.jarr (b.members.map blockMemberObject)) := by
  simp only [uniformBlockObject, jObj]
  split_ifs <;> simp_all [jLookup, blockNameKey, structNameKey, sizeKey, bindingKey,
    setKey, membersKey]

theorem loadUniformBlock_uniformBlockObject (b : UniformBlock)
    (hb : -1 ≤ b.binding) (hd : -1 ≤ b.descriptorSet) :
    loadUniformBlock (uniformBlockObject b) = b := by
  have h := uniformBlockObject_lookups b
  simp only [loadUniformBlock]
  rw [h.1, h.2.1, h.2.2.1, h.2.2.2.1, h.2.2.2.2.1, h.2.2.2.2.2]
  obtain ⟨bn, sn, sz, bi, ds, ms⟩ := b
  simp only at hb hd ⊢
  simp only [jStr, jInt, jArr, UniformBlock.mk.injEq]
  refine ⟨trivial, trivial, trivial, ?_, ?_, decode_members_map ms⟩
  · by_cases hc : (0 : Int) ≤ bi
    · simp [hc, jInt]
    · rw [if_neg hc]
      show (-1 : Int) = bi
      omega
  · by_cases hc : (0 : Int) ≤ ds
    · simp [hc, jInt]
    · rw [if_neg hc]
      show (-1 : Int) = ds
      omega

theorem pushConstantBlockObject_lookups (b : PushConstantBlock) :
    jLookup (jObj (some (pushConstantBlockObject b))) nameKey = some (JVal.jstr b.name) ∧
    jLookup (jObj (some (pushConstantBlockObject b))) sizeKey = some (JVal.jint b.size) ∧
    jLookup (jObj (some (pushConstantBlockObject b))) membersKey =
      some (JVal.jarr (b.members.map blockMemberObject)) := by
  simp_all [pushConstantBlockObject, jObj, jLookup, nameKey, sizeKey, membersKey]

theorem loadPushConstantBlock_pushConstantBlockObject (b : PushConstantBlock) :
    loadPushConstantBlock (pushConstantBlockObject b) = b := by
  have h := pushConstantBlockObject_lookups b
  simp only [loadPushConstantBlock]
  rw [h.1, h.2.1, h.2.2]
  obtain ⟨n, sz, ms⟩ := b
  simp only [jStr, jInt, jArr, PushConstantBlock.mk.injEq]
  exact ⟨trivial, trivial, decode_members_map ms⟩

theorem storageBlockObject_lookups (b : StorageBlock) :
    jLookup (jObj (some (storageBlockObject b))) blockNameKey = some (JVal.jstr b.blockName) ∧
    jLookup (jObj (some (storageBlockObject b))) instanceNameKey =
      some (JVal.jstr b.instanceName) ∧
    jLookup (jObj (some (storageBlockObject b))) knownSizeKey = some (JVal.jint b.knownSize) ∧
    jLookup (jObj (some (storageBlockObject b))) bindingKey =
      (if 0 ≤ b.binding then some (JVal.jint b.binding) else none) ∧
    jLookup (jObj (some (storageBlockObject b))) setKey =
      (if 0 ≤ b.descriptorSet then some (JVal.jint b.descriptorSet) else none) ∧
    jLookup (jObj (some (storageBlockObject b))) membersKey =
      some (JVal.jarr (b.members.map blockMemberObject)) := by
  simp only [storageBlockObject, jObj]
  split_ifs <;> simp_all [jLookup, blockNameKey, instanceNameKey, knownSizeKey, bindingKey,
    setKey, membersKey]

theorem loadStorageBlock_storageBlockObject (b : StorageBlock)
    (hb : -1 ≤ b.binding) (hd : -1 ≤ b.descriptorSet) :
    loadStorageBlock (storageBlockObject b) = b := by
  have h := storageBlockObject_lookups b
  simp only [loadStorageBlock]
  rw [h.1, h.2.1, h.2.2.1, h.2.2.2.1, h.2.2.2.2.1, h.2.2.2.2.2]
  obtain ⟨bn, inm, ks, bi, ds, ms⟩ := b
  simp only at hb hd ⊢
  simp only [jStr, jInt, jArr, StorageBlock.mk.injEq]
  refine ⟨trivial, trivial, trivial, ?_, ?_, decode_members_map ms⟩
  · by_cases hc : (0 : Int) ≤ bi
    · simp [hc, jInt]
    · rw [if_neg hc]
      show (-1 : Int) = bi
      omega
  · by_cases hc : (0 : Int) ≤ ds
    · simp [hc, jInt]
    · rw [if_neg hc]
      show (-1 : Int) = ds
      omega

theorem makeDoc_lookups (d : QShaderDescription) :
    jLookup (jObj (some (makeDoc d))) inputsKey =
      (if d.inVars.isEmpty then none else some (JVal.jarr (d.inVars.map inOutObject))) ∧
    jLookup (jObj (some (makeDoc d))) outputsKey =
      (if d.outVars.isEmpty then none else some (JVal.jarr (d.outVars.map inOutObject))) ∧
    jLookup (jObj (some (makeDoc d))) uniformBlocksKey =
      (if d.uniformBlocks.isEmpty then none
       else some (JVal.jarr (d.uniformBlocks.map uniformBlockObject))) ∧
    jLookup (jObj (some (makeDoc d))) pushConstantBlocksKey =
      (if d.pushConstantBlocks.isEmpty then none
       else some (JVal.jarr (d.pushConstantBlocks.map pushConstantBlockObject))) ∧
    jLookup (jObj (some (makeDoc d))) storageBlocksKey =
      (if d.storageBlocks.isEmpty then none
       else some (JVal.jarr (d.storageBlocks.map storageBlockObject))) ∧
    jLookup (jObj (some (makeDoc d))) combinedImageSamplersKey =
      (if d.combinedImageSamplers.isEmpty then none
       else some (JVal.jarr (d.combinedImageSamplers.map inOutObject))) ∧
    jLookup (jObj (some (makeDoc d))) storageImagesKey =
      (if d.storageImages.isEmpty then none
       else some (JVal.jarr (d.storageImages.map inOutObject))) := by
  simp only [makeDoc, jObj, isEmpty_map]
  split_ifs <;> simp_all [jLookup, inputsKey, outputsKey, uniformBlocksKey,
    pushConstantBlocksKey, storageBlocksKey, combinedImageSamplersKey, storageImagesKey]

theorem decode_inout_map (l : List InOutVariable) (h : ∀ v ∈ l, v.wellFormed) :
    (l.map inOutObject).map (fun j => inOutVar (jObj (some j))) = l := by
  rw [List.map_map]
  simp only [Function.comp_def]
  rw [List.map_congr_left (fun x hx =>
    inOutVar_inOutObject x (h x hx).1 (h x hx).2.1 (h x hx).2.2.1 (h x hx).2.2.2)]
  simp

theorem decode_ub_map (l : List UniformBlock) (h : ∀ b ∈ l, b.wellFormed) :
    (l.map uniformBlockObject).map loadUniformBlock = l := by
  rw [List.map_map]
  simp only [Function.comp_def]
  rw [List.map_congr_left (fun x hx =>
    loadUniformBlock_uniformBlockObject x (h x hx).1 (h x hx).2)]
  simp

theorem decode_pc_map (l : List PushConstantBlock) :
    (l.map pushConstantBlockObject).map loadPushConstantBlock = l := by
  rw [List.map_map]
  simp only [Function.comp_def]
  rw [List.map_congr_left (fun x _ => loadPushConstantBlock_pushConstantBlockObject x)]
  simp

theorem decode_sb_map (l : List StorageBlock) (h : ∀ b ∈ l, b.wellFormed) :
    (l.map storageBlockObject).map loadStorageBlock = l := by
  rw [List.map_map]
  simp only [Function.comp_def]
  rw [List.map_congr_left (fun x hx =>
    loadStorageBlock_storageBlockObject x (h x hx).1 (h x hx).2)]
  simp

/-- Decoding inverts encoding on every well-formed description. -/
theorem loadDoc_makeDoc (d : QShaderDescription) (hwf : d.wellFormed) :
    loadDoc (some (makeDoc d)) = d := by
  obtain ⟨hin, hout, hub, hsb, hcs, hsi⟩ := hwf
  have h := makeDoc_lookups d
  simp only [loadDoc]
  rw [h.1, h.2.1, h.2.2.1, h.2.2.2.1, h.2.2.2.2.1, h.2.2.2.2.2.1, h.2.2.2.2.2.2]
  obtain ⟨iv, ov, ub, pc, sb, cs, si⟩ := d
  simp only at hin hout hub hsb hcs hsi
  simp only [QShaderDescription.mk.injEq]
  refine ⟨?_, ?_, ?_, ?_, ?_, ?_, ?_⟩
  · by_cases hc : iv.isEmpty
    · simp [hc, List.isEmpty_iff.mp hc]
    · rw [if_neg hc]
      simp only [Option.isSome_some, if_true, jArr]
      exact decode_inout_map iv hin
  · by_cases hc : ov.isEmpty
    · simp [hc, List.isEmpty_iff.mp hc]
    · rw [if_neg hc]
      simp only [Option.isSome_some, if_true, jArr]
      exact decode_inout_map ov hout
  · by_cases hc : ub.isEmpty
    · simp [hc, List.isEmpty_iff.mp hc]
    · rw [if_neg hc]
      simp only [Option.isSome_some, if_true, jArr]
      exact decode_ub_map ub hub
  · by_cases hc : pc.isEmpty
    · simp [hc, List.isEmpty_iff.mp hc]
    · rw [if_neg hc]
      simp only [Option.isSome_some, if_true, jArr]
      exact decode_pc_map pc
  · by_cases hc : sb.isEmpty
    · simp [hc, List.isEmpty_iff.mp hc]
    · rw [if_neg hc]
      simp only [Option.isSome_some, if_true, jArr]
      exact decode_sb_map sb hsb
  · by_cases hc : cs.isEmpty
    · simp [hc, List.isEmpty_iff.mp hc]
    · rw [if_neg hc]
      simp only [Option.isSome_some, if_true, jArr]
      exact decode_inout_map cs hcs
  · by_cases hc : si.isEmpty
    · simp [hc, List.isEmpty_iff.mp hc]
    · rw [if_neg hc]
      simp only [Option.isSome_some, if_true, jArr]
      exact decode_inout_map si hsi

end QtShaderDescription

namespace QtShaderDescription

/-- Claim C1 (amended): for every description with at least one non-empty
collection that respects the documented data model (−1 as the only
negative, "absent" decoration value) and whose image formats avoid
`ImageFormatRgba16` — the second enumerator of the two table rows
sharing the literal token "rgba16" — decoding the document produced by
`makeDoc` (the document carried by `toBinaryJson`) via `loadDoc` (the
decoder behind `fromBinaryJson`) yields a description equal
field-for-field, preserving the order of every collection and the
absence sentinels. -/
theorem binary_document_roundTrip (d : QShaderDescription)
    (hvalid : d.isValid = true) (hwf : d.wellFormed) :
    loadDoc (some (makeDoc d)) = d :=
  loadDoc_makeDoc d hwf

/-- Claim C1, witness: the round-trip theorem applied to the source
documentation's worked example (one input, one uniform block with two
members). -/
theorem binary_document_roundTrip_witness :
    (QShaderDescription.isValid exampleDescription = true
      ∧ exampleDescription.wellFormed)
    ∧ loadDoc (some (makeDoc exampleDescription)) = exampleDescription :=
  have h1 : QShaderDescription.isValid exampleDescription = true := rfl
  have h2 : exampleDescription.wellFormed := by decide
  ⟨⟨h1, h2⟩, binary_document_roundTrip exampleDescription h1 h2⟩

/-- Claim C1, counterexample: the claim as stated fails on a valid
description holding one storage image of format `ImageFormatRgba16`:
its token "rgba16" decodes back to `ImageFormatRgba16f`, so the decoded
description differs from the original. -/
theorem binary_document_roundTrip_counterexample :
    QShaderDescription.isValid rgba16Description = true ∧
    loadDoc (some (makeDoc rgba16Description)) ≠ rgba16Description := by
  refine ⟨rfl, fun h => ?_⟩
  have h2 := congrArg QShaderDescription.storageImages h
  have h3 : (loadDoc (some (makeDoc rgba16Description))).storageImages
      ≠ rgba16Description.storageImages := by decide
  exact h3 h2

/-- Claim C2 (amended): mapping a non-Unknown enumerator to its token and
back is the identity for every variable type, and for every image format
other than `ImageFormatRgba16`; that enumerator shares the token
"rgba16" with `ImageFormatRgba16f`, and the first-match scan of
`mapImageFormat` returns the latter. -/
theorem token_tables_roundTrip (t : VariableType) (f : ImageFormat)
    (ht : t ≠ .Unknown) (hf1 : f ≠ .ImageFormatUnknown)
    (hf2 : f ≠ .ImageFormatRgba16) :
    mapType (typeStr t) = t ∧ mapImageFormat (imageFormatStr f) = f :=
  ⟨mapType_typeStr_eq t, mapImageFormat_imageFormatStr_eq f hf2⟩

/-- Claim C2, witness: the token round-trip at vec3 and rg16f. -/
theorem token_tables_roundTrip_witness :
    mapType (typeStr .Vec3) = .Vec3 ∧
      mapImageFormat (imageFormatStr .ImageFormatRg16f) = .ImageFormatRg16f :=
  token_tables_roundTrip .Vec3 .ImageFormatRg16f (by decide) (by decide) (by decide)

/-- Claim C2, counterexample: `ImageFormatRgba16` is not the unknown
sentinel, yet encoding it to its token "rgba16" and decoding again does
not return it (the scan returns `ImageFormatRgba16f`). -/
theorem token_tables_roundTrip_counterexample :
    ImageFormat.ImageFormatRgba16 ≠ ImageFormat.ImageFormatUnknown ∧
    mapImageFormat (imageFormatStr .ImageFormatRgba16) ≠ .ImageFormatRgba16 ∧
    mapImageFormat (imageFormatStr .ImageFormatRgba16) = .ImageFormatRgba16f := by
  refine ⟨by decide, by decide, rfl⟩

/-- Claim C3 (amended): a token absent from either table maps to the
Unknown sentinel; the variable-type table maps the Unknown sentinel to
the empty token; the image-format table instead maps its Unknown
sentinel to the literal token "unknown" (its first row), and the
encoder's omission of the field for the sentinel is achieved by an
explicit guard in `addDeco`, not by the table. -/
theorem token_tables_unknown_contract (s : String) (u : String)
    (hs : ∀ p ∈ typeTab, p.1 ≠ s) (hu : ∀ p ∈ imageFormatTab, p.1 ≠ u) :
    mapType s = .Unknown ∧ mapImageFormat u = .ImageFormatUnknown ∧
    typeStr .Unknown = "" ∧ imageFormatStr .ImageFormatUnknown = "unknown" ∧
    (∀ v : InOutVariable, v.imageFormat = .ImageFormatUnknown →
      jLookup (jObj (some (inOutObject v))) imageFormatKey = none) := by
  refine ⟨?_, ?_, rfl, rfl, ?_⟩
  · unfold mapType
    rw [List.find?_eq_none.mpr (fun p hp => by simpa using hs p hp)]
  · unfold mapImageFormat
    rw [List.find?_eq_none.mpr (fun p hp => by simpa using hu p hp)]
  · intro v hv
    rw [inOutObject_imageFormat]
    simp [hv]

/-- Claim C3, witness: the contract applied to the token "bogus" (absent
from both tables) and a default-constructed variable. -/
theorem token_tables_unknown_contract_witness :
    mapType "bogus" = .Unknown ∧ mapImageFormat "bogus" = .ImageFormatUnknown ∧
    typeStr .Unknown = "" ∧ imageFormatStr .ImageFormatUnknown = "unknown" ∧
    jLookup (jObj (some (inOutObject { name := "x" }))) imageFormatKey = none :=
  have h := token_tables_unknown_contract "bogus" "bogus" (by decide) (by decide)
  ⟨h.1, h.2.1, h.2.2.1, h.2.2.2.1, h.2.2.2.2 { name := "x" } rfl⟩

/-- Claim C3, counterexample: mapping the image-format Unknown sentinel
through `imageFormatStr` yields the token "unknown", not the empty
token, because the table's first row pairs "unknown" with the sentinel. -/
theorem token_tables_unknown_contract_counterexample :
    imageFormatStr .ImageFormatUnknown = "unknown" ∧
    imageFormatStr .ImageFormatUnknown ≠ "" := by
  refine ⟨rfl, by decide⟩

end QtShaderDescription

namespace QtShaderDescription

/-- Claim C4: for in/out variables and block members, a field equal to
its documented default (−1 location/binding/set, Unknown image format, 0
flags/array-stride/matrix-stride, false row-major, empty dims/members)
is omitted from the encoded object — the key is absent — and decoding an
object without that key reconstructs exactly that default value. -/
theorem default_fields_omitted_and_restored :
    (∀ v : InOutVariable,
      (v.location = -1 → jLookup (jObj (some (inOutObject v))) locationKey = none) ∧
      (v.binding = -1 → jLookup (jObj (some (inOutObject v))) bindingKey = none) ∧
      (v.descriptorSet = -1 → jLookup (jObj (some (inOutObject v))) setKey = none) ∧
      (v.imageFormat = .ImageFormatUnknown →
        jLookup (jObj (some (inOutObject v))) imageFormatKey = none) ∧
      (v.imageFlags = 0 → jLookup (jObj (some (inOutObject v))) imageFlagsKey = none)) ∧
    (∀ b : BlockVariable,
      (b.arrayDims = [] → jLookup (jObj (some (blockMemberObject b))) arrayDimsKey = none) ∧
      (b.arrayStride = 0 → jLookup (jObj (some (blockMemberObject b))) arrayStrideKey = none) ∧
      (b.matrixStride = 0 →
        jLookup (jObj (some (blockMemberObject b))) matrixStrideKey = none) ∧
      (b.matrixIsRowMajor = false →
        jLookup (jObj (some (blockMemberObject b))) matrixRowMajorKey = none) ∧
      (b.structMembers = [] →
        jLookup (jObj (some (blockMemberObject b))) structMembersKey = none)) ∧
    (∀ o : List (String × JVal),
      (jLookup o locationKey = none → (inOutVar o).location = -1) ∧
      (jLookup o bindingKey = none → (inOutVar o).binding = -1) ∧
      (jLookup o setKey = none → (inOutVar o).descriptorSet = -1) ∧
      (jLookup o imageFormatKey = none → (inOutVar o).imageFormat = .ImageFormatUnknown) ∧
      (jLookup o imageFlagsKey = none → (inOutVar o).imageFlags = 0) ∧
      (jLookup o arrayDimsKey = none → (blockVarObj o).arrayDims = []) ∧
      (jLookup o arrayStrideKey = none → (blockVarObj o).arrayStride = 0) ∧
      (jLookup o matrixStrideKey = none → (blockVarObj o).matrixStride = 0) ∧
      (jLookup o matrixRowMajorKey = none → (blockVarObj o).matrixIsRowMajor = false) ∧
      (jLookup o structMembersKey = none → (blockVarObj o).structMembers = [])) := by
  refine ⟨fun v => ⟨?_, ?_, ?_, ?_, ?_⟩, fun b => ⟨?_, ?_, ?_, ?_, ?_⟩,
    fun o => ⟨?_, ?_, ?_, ?_, ?_, ?_, ?_, ?_, ?_, ?_⟩⟩
  · intro h
    rw [inOutObject_location]
    simp [h]
  · intro h
    rw [inOutObject_binding]
    simp [h]
  · intro h
    rw [inOutObject_set]
    simp [h]
  · intro h
    rw [inOutObject_imageFormat]
    simp [h]
  · intro h
    rw [inOutObject_imageFlags]
    simp [h]
  · intro h
    rw [blockMemberObject_arrayDims]
    simp [h]
  · intro h
    rw [blockMemberObject_arrayStride]
    simp [h]
  · intro h
    rw [blockMemberObject_matrixStride]
    simp [h]
  · intro h
    rw [blockMemberObject_rowMajor]
    simp [h]
  · intro h
    rw [blockMemberObject_structMembers]
    simp [h]
  · intro h
    simp [inOutVar, h]
  · intro h
    simp [inOutVar, h]
  · intro h
    simp [inOutVar, h]
  · intro h
    simp [inOutVar, h]
  · intro h
    simp [inOutVar, h]
  · intro h
    rw [blockVarObj]
    simp [BlockVariable.arrayDims, h]
  · intro h
    rw [blockVarObj]
    simp [BlockVariable.arrayStride, h]
  · intro h
    rw [blockVarObj]
    simp [BlockVariable.matrixStride, h]
  · intro h
    rw [blockVarObj]
    simp [BlockVariable.matrixIsRowMajor, h]
  · intro h
    rw [blockVarObj]
    simp [BlockVariable.structMembers, h]

/-- Claim C4, witness: the omission/restoration contract at a
default-constructed variable, a defaulted block member, and the empty
object. -/
theorem default_fields_omitted_and_restored_witness :
    jLookup (jObj (some (inOutObject { name := "x" }))) locationKey = none ∧
    jLookup (jObj (some (blockMemberObject (.mk "m" .Float 0 4 [] 0 0 false []))))
      matrixStrideKey = none ∧
    (inOutVar []).location = -1 ∧
    (blockVarObj []).structMembers = [] :=
  have h := default_fields_omitted_and_restored
  ⟨(h.1 { name := "x" }).1 rfl,
   (h.2.1 (.mk "m" .Float 0 4 [] 0 0 false [])).2.2.1 rfl,
   (h.2.2 []).1 rfl,
   (h.2.2 []).2.2.2.2.2.2.2.2.2 rfl⟩

/-- Claim C5: on an absent or corrupt binary document (a null
QJsonDocument after the external byte-level parse), `fromBinaryJson`
only logs a diagnostic and returns a description whose seven collections
are all empty, so `isValid` is false; the function is total — failure is
never an exception or a structured error return. -/
theorem fromBinaryJson_corrupt_gives_empty :
    (fromBinaryJson none).inVars = [] ∧
    (fromBinaryJson none).outVars = [] ∧
    (fromBinaryJson none).uniformBlocks = [] ∧
    (fromBinaryJson none).pushConstantBlocks = [] ∧
    (fromBinaryJson none).storageBlocks = [] ∧
    (fromBinaryJson none).combinedImageSamplers = [] ∧
    (fromBinaryJson none).storageImages = [] ∧
    (fromBinaryJson none).isValid = false :=
  ⟨rfl, rfl, rfl, rfl, rfl, rfl, rfl, rfl⟩

end QtShaderDescription

namespace QtRhiNull

/-- Claim C6: every resource kind created by the null backend's factory
methods accepts every construction configuration — any type, usage,
size, format, pixel size, sample count and flags — and its `build()`
returns true; the reference backend never fails a build. -/
theorem null_backend_build_always_succeeds (b : BufferConfig)
    (rb : RenderBufferConfig) (t : TextureConfig) (prev : QSize)
    (rt : TextureRenderTargetDesc) :
    (QNullBuffer.build b).1 = true ∧
    (QNullRenderBuffer.build rb).1 = true ∧
    (QNullTexture.build t).1 = true ∧
    QNullSampler.build = true ∧
    QNullShaderResourceBindings.build = true ∧
    QNullGraphicsPipeline.build = true ∧
    QNullComputePipeline.build = true ∧
    (QNullTextureRenderTarget.build prev rt).2 = true := by
  refine ⟨rfl, rfl, rfl, rfl, rfl, rfl, rfl, ?_⟩
  obtain ⟨cas, dsb, dts⟩ := rt
  cases cas <;> cases dsb <;> cases dts <;> rfl

/-- Claim C7: on the null backend a completed beginFrame→endFrame cycle
returns FrameOpSuccess from both transitions and increments the
swapchain's frame counter by exactly one, and `buildOrResize()` resets
the frame counter to zero while re-deriving the current pixel size from
`surfacePixelSize()`. -/
theorem frame_cycle_increments_once (s : QRhiNullState) (sc : QNullSwapChain) :
    (QRhiNull.beginFrame s).2.1 = .FrameOpSuccess ∧
    (QRhiNull.endFrame (QRhiNull.beginFrame s).1).2.1 = .FrameOpSuccess ∧
    (QRhiNull.endFrame (QRhiNull.beginFrame s).1).1.sc.frameCount
      = s.sc.frameCount + 1 ∧
    (sc.buildOrResize).1.frameCount = 0 ∧
    (sc.buildOrResize).1.currentPixelSize = sc.surfacePixelSize :=
  ⟨rfl, rfl, rfl, rfl, rfl⟩

/-- Claim C8: starting an offscreen frame while another frame is active
is disallowed by the device's frame-lifecycle guard — the attempt is
rejected (no success) and the recording context is unchanged, so at most
one recording context is active per device at any time; from the idle
context the transition succeeds. -/
theorem offscreen_frame_rejected_while_frame_active :
    QRhi.beginOffscreenFrame .swapChainFrame = (.swapChainFrame, false) ∧
    QRhi.beginOffscreenFrame .offscreenFrame = (.offscreenFrame, false) ∧
    QRhi.beginOffscreenFrame .idle = (.offscreenFrame, true) :=
  ⟨rfl, rfl, rfl⟩

/-- Claim C9: a texture readback synthesized by the null backend's
resourceUpdate has payload length exactly width × height ×
bytes-per-texel of the texture's declared format, with width and height
taken at the requested mip level, and every payload byte is zero; a
readback of the swapchain backbuffer instead reports the fixed RGBA8
format and the swapchain's current size, also zero-filled. -/
theorem null_readback_shape (fmt : TextureFormat) (sz : QSize) (level : Nat)
    (scSize : QSize) :
    ((QRhiNull.readbackResult scSize { texture := some (fmt, sz), level := level }).data.length
        = (sizeForMipLevel level sz).w * (sizeForMipLevel level sz).h * bytesPerTexel fmt) ∧
    (∀ b ∈ (QRhiNull.readbackResult scSize
        { texture := some (fmt, sz), level := level }).data, b = 0) ∧
    (QRhiNull.readbackResult scSize { texture := some (fmt, sz), level := level }).format
      = fmt ∧
    (QRhiNull.readbackResult scSize { texture := some (fmt, sz), level := level }).pixelSize
      = sizeForMipLevel level sz ∧
    (QRhiNull.readbackResult scSize { texture := none, level := level }).format = .RGBA8 ∧
    (QRhiNull.readbackResult scSize { texture := none, level := level }).pixelSize
      = scSize ∧
    ((QRhiNull.readbackResult scSize { texture := none, level := level }).data.length
        = scSize.w * scSize.h * bytesPerTexel .RGBA8) ∧
    (∀ b ∈ (QRhiNull.readbackResult scSize { texture := none, level := level }).data,
      b = 0) := by
  refine ⟨?_, ?_, rfl, rfl, rfl, rfl, ?_, ?_⟩
  · simp [QRhiNull.readbackResult, textureFormatByteSize]
  · intro b hb
    simp only [QRhiNull.readbackResult] at hb
    exact List.eq_of_mem_replicate hb
  · simp [QRhiNull.readbackResult, textureFormatByteSize]
  · intro b hb
    simp only [QRhiNull.readbackResult] at hb
    exact List.eq_of_mem_replicate hb

/-- Claim C9, witness: a 4×4 RGBA8 texture read at mip level 1 yields a
2×2×4-byte payload, and the byte 0 is its sole payload value. -/
theorem null_readback_shape_witness :
    ((QRhiNull.readbackResult (QSize.mk 8 8)
        { texture := some (TextureFormat.RGBA8, QSize.mk 4 4), level := 1 }).data.length
      = (sizeForMipLevel 1 (QSize.mk 4 4)).w * (sizeForMipLevel 1 (QSize.mk 4 4)).h
          * bytesPerTexel TextureFormat.RGBA8)
    ∧ (0 : Nat) = 0 :=
  ⟨(null_readback_shape TextureFormat.RGBA8 (QSize.mk 4 4) 1 (QSize.mk 8 8)).1,
   (null_readback_shape TextureFormat.RGBA8 (QSize.mk 4 4) 1 (QSize.mk 8 8)).2.1 0
     (by decide)⟩

/-- Claim C10: the null swapchain reports a constant drawable size —
`surfacePixelSize()` is 1280×720 regardless of state — and after any
`buildOrResize()` both the swapchain's current pixel size and its
reference render target's pixel size equal exactly 1280×720. -/
theorem null_swapchain_constant_size (sc : QNullSwapChain) :
    sc.surfacePixelSize = QSize.mk 1280 720 ∧
    (sc.buildOrResize).1.currentPixelSize = QSize.mk 1280 720 ∧
    (sc.buildOrResize).1.rtPixelSize = QSize.mk 1280 720 ∧
    (sc.buildOrResize).2.1 = true :=
  ⟨rfl, rfl, rfl, rfl⟩

end QtRhiNull
